import Mathlib

/-!
# Verification of the ComfyUI Windows standalone updater migration engine

Shallow embedding of `new_updater.py` (class `WindowsUpdater` and the
module-level entry point `update_windows_updater`).  File contents are byte
lists (`List Nat`), the filesystem is a map from path strings to optional
contents together with static per-path read/write permission flags, and
Python exceptions are modelled with `Except` over an explicit error type
that distinguishes raw OS errors from the script's own `UpdaterError`.
-/

namespace HLWComfy

/-- ASCII bytes of a string literal (all constants in the source are ASCII). -/
def strBytes (s : String) : List Nat := s.data.map Char.toNat

/-- `bytes.startswith` from Python: does the second list begin with the first? -/
def bytesStartsWith : List Nat → List Nat → Bool
  | [], _ => true
  | _ :: _, [] => false
  | p :: ps, c :: cs => p == c && bytesStartsWith ps cs

/-- Helper for `replaceAll`: while `skip` is positive, drop bytes that belong
to an already-replaced occurrence; at `skip = 0`, scan for the next match. -/
def replaceAllAux (pat rep : List Nat) : Nat → List Nat → List Nat
  | _, [] => []
  | Nat.succ k, _ :: rest => replaceAllAux pat rep k rest
  | 0, c :: rest =>
    if 0 < pat.length ∧ bytesStartsWith pat (c :: rest) = true then
      rep ++ replaceAllAux pat rep (pat.length - 1) rest
    else
      c :: replaceAllAux pat rep 0 rest

/-- `bytes.replace` from Python: replace every (left-to-right, non-overlapping)
occurrence of `pat` by `rep`.  (The program only instantiates `pat` with the
non-empty constant `OLD_CONTENT`, so the empty pattern is left as the
identity.) -/
def replaceAll (pat rep s : List Nat) : List Nat := replaceAllAux pat rep 0 s

/-- Number of positions at which `pat` occurs in the list. -/
def occCount (pat : List Nat) : List Nat → Nat
  | [] => 0
  | c :: rest => (if bytesStartsWith pat (c :: rest) then 1 else 0) + occCount pat rest

/-- `WindowsUpdater.EXPECTED_BAT_PREFIX`. -/
def EXPECTED_BAT_PREFIX_BYTES : List Nat :=
  strBytes "..\\python_embeded\\python.exe .\\update.py"

/-- `WindowsUpdater.OLD_CONTENT`. -/
def OLD_CONTENT : List Nat :=
  strBytes "..\\python_embeded\\python.exe .\\update.py ..\\ComfyUI\\"

/-- `WindowsUpdater.NEW_CONTENT`. -/
def NEW_CONTENT : List Nat :=
  strBytes "call update_comfyui.bat nopause"

/-! ## Fixed paths

`WindowsUpdater.__init__` resolves five fixed paths from `base_path` (the
directory holding the script, `R/app`) and its parent `R`. -/

/-- `self.source_updater = base_path / ".ci" / "update_windows" / "update.py"`. -/
def source_updater : String := "R/app/.ci/update_windows/update.py"

/-- `self.source_bat = base_path / ".ci" / "update_windows" / "update_comfyui.bat"`. -/
def source_bat : String := "R/app/.ci/update_windows/update_comfyui.bat"

/-- `self.dest_updater = top_path / "update" / "update.py"`. -/
def dest_updater : String := "R/update/update.py"

/-- `self.dest_bat = top_path / "update" / "update_comfyui.bat"` (the sentinel). -/
def dest_bat : String := "R/update/update_comfyui.bat"

/-- `self.dest_bat_deps = top_path / "update" / "update_comfyui_and_python_dependencies.bat"`. -/
def dest_bat_deps : String := "R/update/update_comfyui_and_python_dependencies.bat"

/-! ## Filesystem model

A filesystem maps each path to optional byte content, with static per-path
permission flags deciding whether a read or a write at that path succeeds. -/

/-- Filesystem state: file contents plus read/write permissions per path. -/
structure FS where
  files : String → Option (List Nat)
  canRead : String → Bool
  canWrite : String → Bool

/-- Overwrite (or create) the file at `p` with content `c`. -/
def setFile (fs : FS) (p : String) (c : List Nat) : FS :=
  { fs with files := fun q => if q = p then some c else fs.files q }

/-- Python exception classes relevant to the script: the OS-error family
(`FileNotFoundError`, `PermissionError`, `OSError`), carrying the offending
path, and the script's own `UpdaterError`, carrying its message. -/
inductive PyErr where
  | osError (path : String)
  | updaterError (msg : String)
deriving DecidableEq

instance {ε α : Type} [DecidableEq ε] [DecidableEq α] : DecidableEq (Except ε α) := fun x y =>
  match x, y with
  | Except.ok a, Except.ok b =>
    if h : a = b then Decidable.isTrue (congrArg Except.ok h)
    else Decidable.isFalse (fun hc => h (Except.ok.inj hc))
  | Except.error a, Except.error b =>
    if h : a = b then Decidable.isTrue (congrArg Except.error h)
    else Decidable.isFalse (fun hc => h (Except.error.inj hc))
  | Except.ok _, Except.error _ => Decidable.isFalse (fun hc => Except.noConfusion hc)
  | Except.error _, Except.ok _ => Decidable.isFalse (fun hc => Except.noConfusion hc)

/-- `Path.read_bytes`: raises an OS error when the file is absent or
unreadable. -/
def rawReadBytes (fs : FS) (p : String) : Except PyErr (List Nat) :=
  match fs.files p with
  | none => Except.error (PyErr.osError p)
  | some c => if fs.canRead p then Except.ok c else Except.error (PyErr.osError p)

/-- `Path.write_bytes`: raises an OS error when the path is not writable;
otherwise overwrites/creates the file. -/
def rawWriteBytes (fs : FS) (p : String) (c : List Nat) : Except PyErr FS :=
  if fs.canWrite p then Except.ok (setFile fs p c) else Except.error (PyErr.osError p)

/-- `WindowsUpdater._read_file_content`: catches every OS error and returns
`None`. -/
def readFileContent (fs : FS) (p : String) : Option (List Nat) :=
  match rawReadBytes fs p with
  | Except.ok c => some c
  | Except.error _ => none

/-- `WindowsUpdater._write_file_content`: catches every OS error, prints a
warning and returns `False`; returns `True` on success.  Result is the new
filesystem, the printed diagnostics, and the boolean. -/
def writeFileContent (fs : FS) (p : String) (c : List Nat) : FS × List String × Bool :=
  match rawWriteBytes fs p c with
  | Except.ok fs2 => (fs2, [], true)
  | Except.error _ => (fs, ["Warning: Could not write to " ++ p], false)

/-- `WindowsUpdater._validate_paths`: raises `UpdaterError` naming the missing
source file (updater script checked first). -/
def validatePaths (fs : FS) : Except PyErr Unit :=
  if (fs.files source_updater).isSome then
    if (fs.files source_bat).isSome then
      Except.ok ()
    else
      Except.error (PyErr.updaterError ("Source batch file not found: " ++ source_bat))
  else
    Except.error (PyErr.updaterError ("Source updater file not found: " ++ source_updater))

/-- `WindowsUpdater._should_update`: the sentinel `dest_bat` must be readable
and start with `EXPECTED_BAT_PREFIX`. -/
def shouldUpdate (fs : FS) : Bool :=
  match readFileContent fs dest_bat with
  | none => false
  | some c => bytesStartsWith EXPECTED_BAT_PREFIX_BYTES c

/-- `WindowsUpdater._update_dependencies_file`: read the optional dependency
batch file; on failure return silently; otherwise substitute the legacy
invocation and write the result back (ignoring the write's boolean result).
Returns the new filesystem and the printed diagnostics. -/
def updateDependenciesFile (fs : FS) : FS × List String :=
  match readFileContent fs dest_bat_deps with
  | none => (fs, [])
  | some c =>
    ((writeFileContent fs dest_bat_deps (replaceAll OLD_CONTENT NEW_CONTENT c)).1,
     (writeFileContent fs dest_bat_deps (replaceAll OLD_CONTENT NEW_CONTENT c)).2.1)

/-- `shutil.copy2 src dst`: read `src`, overwrite `dst`; raises an OS error
when `src` is absent or unreadable or `dst` is not writable. -/
def copy2 (fs : FS) (src dst : String) : Except PyErr FS :=
  match fs.files src with
  | none => Except.error (PyErr.osError src)
  | some c =>
    if fs.canRead src then
      if fs.canWrite dst then
        Except.ok (setFile fs dst c)
      else
        Except.error (PyErr.osError dst)
    else
      Except.error (PyErr.osError src)

/-- `WindowsUpdater._copy_files`: copy the updater script, then the launcher
batch; any OS error is caught and re-raised as `UpdaterError`.  Returns the
filesystem reached at the failure point (a failed second copy keeps the first
copy's effect). -/
def copyFiles (fs : FS) : FS × Except PyErr Unit :=
  match copy2 fs source_updater dest_updater with
  | Except.error (PyErr.osError p) =>
    (fs, Except.error (PyErr.updaterError ("Failed to copy files: " ++ p)))
  | Except.error e => (fs, Except.error e)
  | Except.ok fs1 =>
    match copy2 fs1 source_bat dest_bat with
    | Except.error (PyErr.osError p) =>
      (fs1, Except.error (PyErr.updaterError ("Failed to copy files: " ++ p)))
    | Except.error e => (fs1, Except.error e)
    | Except.ok fs2 => (fs2, Except.ok ())

/-- Body of the `try` block of `WindowsUpdater.update`: validate, check the
sentinel, copy, patch, print the success line.  An uncaught exception shows
up as `Except.error` in the third component. -/
def updateBody (fs : FS) : FS × List String × Except PyErr Bool :=
  match validatePaths fs with
  | Except.error e => (fs, [], Except.error e)
  | Except.ok _ =>
    if shouldUpdate fs then
      match copyFiles fs with
      | (fs1, Except.error e) => (fs1, [], Except.error e)
      | (fs1, Except.ok _) =>
        ((updateDependenciesFile fs1).1,
         (updateDependenciesFile fs1).2 ++ ["Updated the windows standalone package updater."],
         Except.ok true)
    else
      (fs, [], Except.ok false)

/-- `WindowsUpdater.update`: runs the body and catches `UpdaterError` only,
printing the failure line and returning `False`; any other exception (none
occurs, as proved below) would propagate. -/
def update (fs : FS) : FS × List String × Except PyErr Bool :=
  match updateBody fs with
  | (fs1, msgs, Except.error (PyErr.updaterError m)) =>
    (fs1, msgs ++ ["Update failed: " ++ m], Except.ok false)
  | (fs1, msgs, Except.error (PyErr.osError p)) =>
    (fs1, msgs, Except.error (PyErr.osError p))
  | (fs1, msgs, Except.ok b) => (fs1, msgs, Except.ok b)

/-- `update_windows_updater`: constructs `WindowsUpdater(base_path)` for the
fixed module-level `base_path` and runs `update`. -/
def update_windows_updater (fs : FS) : FS × List String × Except PyErr Bool := update fs

/-! ## Concrete filesystem states used by the witnesses -/

/-- Sample content of the shipped updater script. -/
def exUpdContent : List Nat := strBytes "import os"

/-- Sample content of the shipped launcher batch (new scheme, no legacy
invocation). -/
def exBatContent : List Nat := strBytes "call update.py nopause"

/-- A legacy sentinel: exactly the expected legacy prefix plus arguments. -/
def exSentinel : List Nat := OLD_CONTENT

/-- Happy-path state: both sources shipped, legacy sentinel in place, a
dependency batch file containing the legacy marker once, everything
readable and writable. -/
def goodFS : FS where
  files := fun p =>
    if p = source_updater then some exUpdContent
    else if p = source_bat then some exBatContent
    else if p = dest_bat then some exSentinel
    else if p = dest_bat_deps then some (strBytes "@echo off\u000A" ++ OLD_CONTENT ++ strBytes "\u000Apause")
    else if p = "R/other.txt" then some (strBytes "keep")
    else none
  canRead := fun _ => true
  canWrite := fun _ => true

/-! ## Further concrete states used by the witnesses -/

/-- A state whose destination directory has no sentinel at all. -/
def noSentinelFS : FS where
  files := fun p =>
    if p = source_updater then some exUpdContent
    else if p = source_bat then some exBatContent
    else none
  canRead := fun _ => true
  canWrite := fun _ => true

/-- A state with a legacy sentinel but no source artifacts. -/
def noSourceFS : FS where
  files := fun p => if p = dest_bat then some exSentinel else none
  canRead := fun _ => true
  canWrite := fun _ => true

/-- An eligible state in which the primary destination `update.py` is not
writable, so the first copy fails. -/
def lockedDestFS : FS where
  files := goodFS.files
  canRead := fun _ => true
  canWrite := fun p => if p = dest_updater then false else true

/-- An eligible state whose dependency batch file exists but is not
writable, so the patch write fails. -/
def depsReadOnlyFS : FS where
  files := fun p =>
    if p = source_updater then some exUpdContent
    else if p = source_bat then some exBatContent
    else if p = dest_bat then some exSentinel
    else if p = dest_bat_deps then some OLD_CONTENT
    else none
  canRead := fun _ => true
  canWrite := fun p => if p = dest_bat_deps then false else true

/-- A state whose dependency batch file contains no legacy marker. -/
def depsNoMarkerFS : FS where
  files := fun p => if p = dest_bat_deps then some (strBytes "echo hi") else none
  canRead := fun _ => true
  canWrite := fun _ => true

/-- Modelled from the spec: the byte content of the shipped source launcher
batch `R/app/.ci/update_windows/update_comfyui.bat` is not part of the
repository sources available here; per the spec the new scheme replaces the
legacy invocation, so the shipped batch does not begin with the legacy
prefix (the rewritten sentinel is then ineligible, "the expected steady
state after the first successful migration"). -/
def newSchemeSourceBat (c : List Nat) : Prop :=
  bytesStartsWith EXPECTED_BAT_PREFIX_BYTES c = false

/-! ## Lemmas about the byte-level substitution -/

lemma bytesStartsWith_append_self (pat b : List Nat) :
    bytesStartsWith pat (pat ++ b) = true := by
  induction pat with
  | nil => rfl
  | cons p ps ih => simp [bytesStartsWith, ih]

lemma occCount_le_append (pat a b : List Nat) :
    occCount pat b ≤ occCount pat (a ++ b) := by
  induction a with
  | nil => simp
  | cons x xs ih =>
    simp only [List.cons_append, occCount, List.append_eq]
    omega

lemma occCount_append_pos (pat a b : List Nat) (hp : pat ≠ []) :
    1 ≤ occCount pat (a ++ (pat ++ b)) := by
  induction a with
  | nil =>
    cases pat with
    | nil => exact absurd rfl hp
    | cons p ps =>
      have hs : bytesStartsWith (p :: ps) (p :: (ps ++ b)) = true := by
        simpa using bytesStartsWith_append_self (p :: ps) b
      simp only [List.nil_append, List.cons_append, occCount, List.append_eq, hs, if_true]
      omega
  | cons x xs ih =>
    simp only [List.cons_append, occCount, List.append_eq]
    omega

lemma replaceAllAux_of_occCount_zero (pat rep s : List Nat)
    (h : occCount pat s = 0) : replaceAllAux pat rep 0 s = s := by
  induction s with
  | nil => rfl
  | cons c cs ih =>
    have hsw : bytesStartsWith pat (c :: cs) = false := by
      cases hb : bytesStartsWith pat (c :: cs) with
      | false => rfl
      | true => simp [occCount, hb] at h
    rw [replaceAllAux, if_neg]
    · rw [ih]
      simp [occCount, hsw] at h
      exact h
    · intro hc
      rw [hsw] at hc
      exact Bool.false_ne_true hc.2

lemma replaceAllAux_skip (pat rep a b : List Nat) :
    replaceAllAux pat rep a.length (a ++ b) = replaceAllAux pat rep 0 b := by
  induction a with
  | nil => rfl
  | cons x xs ih =>
    simp only [List.length_cons, List.cons_append]
    rw [replaceAllAux]
    exact ih

/-- Core substitution lemma: when the pattern occurs exactly once, `replaceAll`
replaces that single occurrence and leaves every other byte unchanged. -/
lemma replaceAll_single_occurrence (pat rep a b : List Nat) (hp : pat ≠ [])
    (h1 : occCount pat (a ++ (pat ++ b)) = 1) :
    replaceAll pat rep (a ++ (pat ++ b)) = a ++ (rep ++ b) := by
  induction a with
  | nil =>
    cases pat with
    | nil => exact absurd rfl hp
    | cons p ps =>
      have hsw : bytesStartsWith (p :: ps) ((p :: ps) ++ b) = true :=
        bytesStartsWith_append_self (p :: ps) b
      simp only [List.nil_append, List.cons_append] at h1 ⊢
      unfold replaceAll
      rw [replaceAllAux, if_pos]
      · have hskip : replaceAllAux (p :: ps) rep ps.length (ps ++ b) =
            replaceAllAux (p :: ps) rep 0 b := replaceAllAux_skip (p :: ps) rep ps b
        have hlen : (p :: ps).length - 1 = ps.length := by simp
        rw [hlen, hskip]
        have hz : occCount (p :: ps) b = 0 := by
          simp only [List.cons_append] at hsw
          simp only [occCount, hsw, if_true] at h1
          have hle := occCount_le_append (p :: ps) ps b
          omega
        rw [replaceAllAux_of_occCount_zero (p :: ps) rep b hz]
      · constructor
        · simp
        · simpa using hsw
  | cons x xs ih =>
    have hpos : 1 ≤ occCount pat (xs ++ (pat ++ b)) := occCount_append_pos pat xs b hp
    simp only [List.cons_append] at h1 ⊢
    have hsw : bytesStartsWith pat (x :: (xs ++ (pat ++ b))) = false := by
      cases hb : bytesStartsWith pat (x :: (xs ++ (pat ++ b))) with
      | false => rfl
      | true =>
        simp only [occCount, hb, if_true] at h1
        omega
    have htail : occCount pat (xs ++ (pat ++ b)) = 1 := by
      simp only [occCount, hsw] at h1
      simpa using h1
    unfold replaceAll
    rw [replaceAllAux, if_neg]
    · have := ih htail
      unfold replaceAll at this
      rw [this]
    · intro hc
      rw [hsw] at hc
      exact Bool.false_ne_true hc.2

/-! ## Path distinctness -/

lemma source_updater_ne_dest_updater : source_updater ≠ dest_updater := by decide

lemma source_updater_ne_dest_bat : source_updater ≠ dest_bat := by decide

lemma source_updater_ne_dest_bat_deps : source_updater ≠ dest_bat_deps := by decide

lemma source_bat_ne_dest_updater : source_bat ≠ dest_updater := by decide

lemma source_bat_ne_dest_bat : source_bat ≠ dest_bat := by decide

lemma source_bat_ne_dest_bat_deps : source_bat ≠ dest_bat_deps := by decide

lemma dest_updater_ne_dest_bat : dest_updater ≠ dest_bat := by decide

lemma dest_updater_ne_dest_bat_deps : dest_updater ≠ dest_bat_deps := by decide

lemma dest_bat_ne_dest_bat_deps : dest_bat ≠ dest_bat_deps := by decide

lemma dest_bat_deps_ne_dest_updater : dest_bat_deps ≠ dest_updater := by decide

lemma dest_bat_deps_ne_dest_bat : dest_bat_deps ≠ dest_bat := by decide

/-! ## Lemmas about the filesystem operations -/

lemma setFile_canRead (fs : FS) (p : String) (c : List Nat) :
    (setFile fs p c).canRead = fs.canRead := rfl

lemma setFile_canWrite (fs : FS) (p : String) (c : List Nat) :
    (setFile fs p c).canWrite = fs.canWrite := rfl

lemma setFile_files_self (fs : FS) (p : String) (c : List Nat) :
    (setFile fs p c).files p = some c := by simp [setFile]

lemma setFile_files_ne (fs : FS) (p : String) (c : List Nat) (q : String) (h : q ≠ p) :
    (setFile fs p c).files q = fs.files q := by simp [setFile, h]

lemma readFileContent_some_iff (fs : FS) (p : String) (c : List Nat) :
    readFileContent fs p = some c ↔ fs.files p = some c ∧ fs.canRead p = true := by
  unfold readFileContent rawReadBytes
  cases h : fs.files p with
  | none => simp
  | some c2 =>
    cases hr : fs.canRead p with
    | true => simp [And.comm]
    | false => simp

lemma validatePaths_ok_iff (fs : FS) :
    validatePaths fs = Except.ok () ↔
      (fs.files source_updater).isSome = true ∧ (fs.files source_bat).isSome = true := by
  unfold validatePaths
  cases h1 : (fs.files source_updater).isSome with
  | false => simp
  | true =>
    cases h2 : (fs.files source_bat).isSome with
    | false => simp
    | true => simp

lemma validatePaths_error_shape (fs : FS) (e : PyErr)
    (h : validatePaths fs = Except.error e) : ∃ m, e = PyErr.updaterError m := by
  unfold validatePaths at h
  cases h1 : (fs.files source_updater).isSome with
  | false =>
    rw [h1] at h
    simp only [Bool.false_eq_true, if_false] at h
    exact ⟨_, (Except.error.inj h).symm⟩
  | true =>
    rw [h1] at h
    cases h2 : (fs.files source_bat).isSome with
    | false =>
      rw [h2] at h
      simp only [Bool.false_eq_true, if_false, if_true, eq_self_iff_true] at h
      exact ⟨_, (Except.error.inj h).symm⟩
    | true =>
      rw [h2] at h
      simp at h

lemma copy2_ok_of (fs : FS) (src dst : String) (c : List Nat)
    (hc : fs.files src = some c) (hr : fs.canRead src = true)
    (hw : fs.canWrite dst = true) :
    copy2 fs src dst = Except.ok (setFile fs dst c) := by
  unfold copy2
  rw [hc]
  simp [hr, hw]

lemma copy2_ok_iff (fs : FS) (src dst : String) (fs2 : FS) :
    copy2 fs src dst = Except.ok fs2 ↔
      ∃ c, fs.files src = some c ∧ fs.canRead src = true ∧ fs.canWrite dst = true ∧
        fs2 = setFile fs dst c := by
  unfold copy2
  cases h : fs.files src with
  | none => simp
  | some c =>
    cases hr : fs.canRead src with
    | false => simp
    | true =>
      cases hw : fs.canWrite dst with
      | false => simp
      | true => simp [eq_comm]

lemma copy2_error_shape (fs : FS) (src dst : String) (e : PyErr)
    (h : copy2 fs src dst = Except.error e) : ∃ p, e = PyErr.osError p := by
  unfold copy2 at h
  cases hf : fs.files src with
  | none =>
    rw [hf] at h
    exact ⟨src, (Except.error.inj h).symm⟩
  | some c =>
    rw [hf] at h
    cases hr : fs.canRead src with
    | false =>
      rw [hr] at h
      simp only [Bool.false_eq_true, if_false] at h
      exact ⟨src, (Except.error.inj h).symm⟩
    | true =>
      rw [hr] at h
      cases hw : fs.canWrite dst with
      | false =>
        rw [hw] at h
        simp only [Bool.false_eq_true, if_false, if_true, eq_self_iff_true] at h
        exact ⟨dst, (Except.error.inj h).symm⟩
      | true =>
        rw [hw] at h
        simp at h

lemma copy2_ok_perm (fs : FS) (src dst : String) (fs2 : FS)
    (h : copy2 fs src dst = Except.ok fs2) :
    fs2.canRead = fs.canRead ∧ fs2.canWrite = fs.canWrite := by
  obtain ⟨c, _, _, _, rfl⟩ := (copy2_ok_iff fs src dst fs2).mp h
  exact ⟨rfl, rfl⟩

lemma copy2_ok_frame (fs : FS) (src dst : String) (fs2 : FS)
    (h : copy2 fs src dst = Except.ok fs2) (q : String) (hq : q ≠ dst) :
    fs2.files q = fs.files q := by
  obtain ⟨c, _, _, _, rfl⟩ := (copy2_ok_iff fs src dst fs2).mp h
  exact setFile_files_ne fs dst c q hq

lemma copyFiles_ok_state (fs : FS) (cu cb : List Nat)
    (hu : fs.files source_updater = some cu) (hb : fs.files source_bat = some cb)
    (hru : fs.canRead source_updater = true) (hrb : fs.canRead source_bat = true)
    (hwu : fs.canWrite dest_updater = true) (hwb : fs.canWrite dest_bat = true) :
    copyFiles fs = (setFile (setFile fs dest_updater cu) dest_bat cb, Except.ok ()) := by
  have h1 : copy2 fs source_updater dest_updater = Except.ok (setFile fs dest_updater cu) :=
    copy2_ok_of fs source_updater dest_updater cu hu hru hwu
  have hb1 : (setFile fs dest_updater cu).files source_bat = some cb := by
    rw [setFile_files_ne fs dest_updater cu source_bat source_bat_ne_dest_updater]
    exact hb
  have h2 : copy2 (setFile fs dest_updater cu) source_bat dest_bat =
      Except.ok (setFile (setFile fs dest_updater cu) dest_bat cb) :=
    copy2_ok_of (setFile fs dest_updater cu) source_bat dest_bat cb hb1 hrb hwb
  unfold copyFiles
  simp only [h1, h2]

lemma copyFiles_perm (fs : FS) :
    (copyFiles fs).1.canRead = fs.canRead ∧ (copyFiles fs).1.canWrite = fs.canWrite := by
  unfold copyFiles
  cases h1 : copy2 fs source_updater dest_updater with
  | error e1 => cases e1 <;> simp
  | ok fs1 =>
    obtain ⟨hr1, hw1⟩ := copy2_ok_perm fs source_updater dest_updater fs1 h1
    cases h2 : copy2 fs1 source_bat dest_bat with
    | error e2 => cases e2 <;> simp [h2, hr1, hw1]
    | ok fs2 =>
      obtain ⟨hr2, hw2⟩ := copy2_ok_perm fs1 source_bat dest_bat fs2 h2
      simp [h2, hr2, hw2, hr1, hw1]

lemma copyFiles_files_frame (fs : FS) (q : String)
    (h1 : q ≠ dest_updater) (h2 : q ≠ dest_bat) :
    (copyFiles fs).1.files q = fs.files q := by
  unfold copyFiles
  cases hc1 : copy2 fs source_updater dest_updater with
  | error e1 => cases e1 <;> simp
  | ok fs1 =>
    have hf1 : fs1.files q = fs.files q :=
      copy2_ok_frame fs source_updater dest_updater fs1 hc1 q h1
    cases hc2 : copy2 fs1 source_bat dest_bat with
    | error e2 => cases e2 <;> simp [hc2, hf1]
    | ok fs2 =>
      have hf2 : fs2.files q = fs1.files q :=
        copy2_ok_frame fs1 source_bat dest_bat fs2 hc2 q h2
      simp [hc2, hf2, hf1]

lemma copyFiles_error_shape (fs : FS) (e : PyErr)
    (h : (copyFiles fs).2 = Except.error e) : ∃ m, e = PyErr.updaterError m := by
  unfold copyFiles at h
  cases hc1 : copy2 fs source_updater dest_updater with
  | error e1 =>
    obtain ⟨p, rfl⟩ := copy2_error_shape fs source_updater dest_updater e1 hc1
    simp only [hc1] at h
    exact ⟨_, (Except.error.inj h).symm⟩
  | ok fs1 =>
    simp only [hc1] at h
    cases hc2 : copy2 fs1 source_bat dest_bat with
    | error e2 =>
      obtain ⟨p, rfl⟩ := copy2_error_shape fs1 source_bat dest_bat e2 hc2
      simp only [hc2] at h
      exact ⟨_, (Except.error.inj h).symm⟩
    | ok fs2 =>
      simp only [hc2] at h
      exact Except.noConfusion h

lemma copyFiles_error_frame (fs : FS) (e : PyErr)
    (h : (copyFiles fs).2 = Except.error e) (q : String) (hq : q ≠ dest_updater) :
    (copyFiles fs).1.files q = fs.files q := by
  unfold copyFiles at h ⊢
  cases hc1 : copy2 fs source_updater dest_updater with
  | error e1 => cases e1 <;> simp [hc1]
  | ok fs1 =>
    have hf1 : fs1.files q = fs.files q :=
      copy2_ok_frame fs source_updater dest_updater fs1 hc1 q hq
    simp only [hc1] at h ⊢
    cases hc2 : copy2 fs1 source_bat dest_bat with
    | error e2 => cases e2 <;> simp [hc2, hf1]
    | ok fs2 =>
      simp only [hc2] at h
      exact Except.noConfusion h

lemma writeFileContent_of_canWrite (fs : FS) (p : String) (c : List Nat)
    (hw : fs.canWrite p = true) :
    writeFileContent fs p c = (setFile fs p c, [], true) := by
  unfold writeFileContent rawWriteBytes
  rw [hw]
  simp

lemma writeFileContent_of_not_canWrite (fs : FS) (p : String) (c : List Nat)
    (hw : fs.canWrite p = false) :
    writeFileContent fs p c = (fs, ["Warning: Could not write to " ++ p], false) := by
  unfold writeFileContent rawWriteBytes
  rw [hw]
  simp

lemma updateDeps_of_read_none (fs : FS)
    (h : readFileContent fs dest_bat_deps = none) :
    updateDependenciesFile fs = (fs, []) := by
  unfold updateDependenciesFile
  rw [h]

lemma updateDeps_of_read_some_write_ok (fs : FS) (c : List Nat)
    (h : readFileContent fs dest_bat_deps = some c)
    (hw : fs.canWrite dest_bat_deps = true) :
    updateDependenciesFile fs =
      (setFile fs dest_bat_deps (replaceAll OLD_CONTENT NEW_CONTENT c), []) := by
  unfold updateDependenciesFile
  rw [h]
  simp only [writeFileContent_of_canWrite fs dest_bat_deps _ hw]

lemma updateDeps_of_read_some_write_fail (fs : FS) (c : List Nat)
    (h : readFileContent fs dest_bat_deps = some c)
    (hw : fs.canWrite dest_bat_deps = false) :
    updateDependenciesFile fs =
      (fs, ["Warning: Could not write to " ++ dest_bat_deps]) := by
  unfold updateDependenciesFile
  rw [h]
  simp only [writeFileContent_of_not_canWrite fs dest_bat_deps _ hw]

lemma updateDeps_perm (fs : FS) :
    (updateDependenciesFile fs).1.canRead = fs.canRead ∧
      (updateDependenciesFile fs).1.canWrite = fs.canWrite := by
  unfold updateDependenciesFile
  cases h : readFileContent fs dest_bat_deps with
  | none => exact ⟨rfl, rfl⟩
  | some c =>
    cases hw : fs.canWrite dest_bat_deps with
    | true => simp [writeFileContent_of_canWrite fs dest_bat_deps _ hw, setFile_canRead,
        setFile_canWrite]
    | false => simp [writeFileContent_of_not_canWrite fs dest_bat_deps _ hw]

lemma updateDeps_files_frame (fs : FS) (q : String) (hq : q ≠ dest_bat_deps) :
    (updateDependenciesFile fs).1.files q = fs.files q := by
  unfold updateDependenciesFile
  cases h : readFileContent fs dest_bat_deps with
  | none => rfl
  | some c =>
    cases hw : fs.canWrite dest_bat_deps with
    | true =>
      simp only [writeFileContent_of_canWrite fs dest_bat_deps _ hw]
      exact setFile_files_ne fs dest_bat_deps _ q hq
    | false => simp [writeFileContent_of_not_canWrite fs dest_bat_deps _ hw]

/-! ## Case characterisations of `update` -/

lemma update_of_validate_error (fs : FS) (m : String)
    (h : validatePaths fs = Except.error (PyErr.updaterError m)) :
    update fs = (fs, ["Update failed: " ++ m], Except.ok false) := by
  unfold update updateBody
  simp only [h]
  simp

lemma update_of_source_updater_missing (fs : FS) (h : fs.files source_updater = none) :
    update fs =
      (fs, ["Update failed: " ++ ("Source updater file not found: " ++ source_updater)],
        Except.ok false) := by
  apply update_of_validate_error
  unfold validatePaths
  rw [h]
  simp

lemma update_of_source_bat_missing (fs : FS)
    (h1 : (fs.files source_updater).isSome = true) (h2 : fs.files source_bat = none) :
    update fs =
      (fs, ["Update failed: " ++ ("Source batch file not found: " ++ source_bat)],
        Except.ok false) := by
  apply update_of_validate_error
  unfold validatePaths
  rw [h1, h2]
  simp

lemma update_of_not_shouldUpdate (fs : FS)
    (hv : validatePaths fs = Except.ok ()) (hs : shouldUpdate fs = false) :
    update fs = (fs, [], Except.ok false) := by
  unfold update updateBody
  simp only [hv, hs]
  simp

lemma update_of_copy_error (fs : FS) (m : String)
    (hv : validatePaths fs = Except.ok ()) (hs : shouldUpdate fs = true)
    (hc : (copyFiles fs).2 = Except.error (PyErr.updaterError m)) :
    update fs = ((copyFiles fs).1, ["Update failed: " ++ m], Except.ok false) := by
  rcases hcf : copyFiles fs with ⟨fs1, r⟩
  rw [hcf] at hc
  simp only at hc
  subst hc
  unfold update updateBody
  simp only [hv, hs, hcf]
  simp

lemma update_of_success (fs : FS)
    (hv : validatePaths fs = Except.ok ()) (hs : shouldUpdate fs = true)
    (hc : (copyFiles fs).2 = Except.ok ()) :
    update fs = ((updateDependenciesFile (copyFiles fs).1).1,
      (updateDependenciesFile (copyFiles fs).1).2 ++
        ["Updated the windows standalone package updater."],
      Except.ok true) := by
  rcases hcf : copyFiles fs with ⟨fs1, r⟩
  rw [hcf] at hc
  simp only at hc
  subst hc
  unfold update updateBody
  simp only [hv, hs, hcf]
  simp

lemma update_perm (fs : FS) :
    (update fs).1.canRead = fs.canRead ∧ (update fs).1.canWrite = fs.canWrite := by
  cases hv : validatePaths fs with
  | error e =>
    obtain ⟨m, rfl⟩ := validatePaths_error_shape fs e hv
    rw [update_of_validate_error fs m hv]
    exact ⟨rfl, rfl⟩
  | ok u =>
    cases u
    cases hs : shouldUpdate fs with
    | false =>
      rw [update_of_not_shouldUpdate fs hv hs]
      exact ⟨rfl, rfl⟩
    | true =>
      cases hc : (copyFiles fs).2 with
      | error e =>
        obtain ⟨m, rfl⟩ := copyFiles_error_shape fs e hc
        rw [update_of_copy_error fs m hv hs hc]
        exact copyFiles_perm fs
      | ok u2 =>
        cases u2
        rw [update_of_success fs hv hs hc]
        obtain ⟨dr, dw⟩ := updateDeps_perm (copyFiles fs).1
        obtain ⟨cr, cw⟩ := copyFiles_perm fs
        exact ⟨by rw [dr, cr], by rw [dw, cw]⟩

lemma update_files_frame (fs : FS) (q : String)
    (h1 : q ≠ dest_updater) (h2 : q ≠ dest_bat) (h3 : q ≠ dest_bat_deps) :
    (update fs).1.files q = fs.files q := by
  cases hv : validatePaths fs with
  | error e =>
    obtain ⟨m, rfl⟩ := validatePaths_error_shape fs e hv
    rw [update_of_validate_error fs m hv]
  | ok u =>
    cases u
    cases hs : shouldUpdate fs with
    | false => rw [update_of_not_shouldUpdate fs hv hs]
    | true =>
      cases hc : (copyFiles fs).2 with
      | error e =>
        obtain ⟨m, rfl⟩ := copyFiles_error_shape fs e hc
        rw [update_of_copy_error fs m hv hs hc]
        exact copyFiles_files_frame fs q h1 h2
      | ok u2 =>
        cases u2
        rw [update_of_success fs hv hs hc]
        rw [updateDeps_files_frame (copyFiles fs).1 q h3]
        exact copyFiles_files_frame fs q h1 h2

lemma copyFiles_ok_elim (fs : FS) (h : (copyFiles fs).2 = Except.ok ()) :
    ∃ cu cb, fs.files source_updater = some cu ∧ fs.files source_bat = some cb ∧
      (copyFiles fs).1 = setFile (setFile fs dest_updater cu) dest_bat cb := by
  unfold copyFiles at h ⊢
  cases hc1 : copy2 fs source_updater dest_updater with
  | error e1 => cases e1 <;> simp [hc1] at h
  | ok fs1 =>
    simp only [hc1] at h ⊢
    cases hc2 : copy2 fs1 source_bat dest_bat with
    | error e2 => cases e2 <;> simp [hc2] at h
    | ok fs2 =>
      simp only [hc2] at h ⊢
      obtain ⟨cu, hcu, hru, hwu, rfl⟩ :=
        (copy2_ok_iff fs source_updater dest_updater fs1).mp hc1
      obtain ⟨cb, hcb, hrb, hwb, rfl⟩ :=
        (copy2_ok_iff (setFile fs dest_updater cu) source_bat dest_bat fs2).mp hc2
      refine ⟨cu, cb, hcu, ?_, rfl⟩
      rw [setFile_files_ne fs dest_updater cu source_bat source_bat_ne_dest_updater] at hcb
      exact hcb

lemma update_success_parts (fs : FS)
    (hv : validatePaths fs = Except.ok ()) (hs : shouldUpdate fs = true)
    (hc : (copyFiles fs).2 = Except.ok ()) :
    (update fs).1 = (updateDependenciesFile (copyFiles fs).1).1 ∧
      (update fs).2.1 = (updateDependenciesFile (copyFiles fs).1).2 ++
        ["Updated the windows standalone package updater."] ∧
      (update fs).2.2 = Except.ok true := by
  rw [update_of_success fs hv hs hc]
  exact ⟨rfl, rfl, rfl⟩

/-! ## Claims -/

/-- Claim C1: for every filesystem state, the top-level entry point returns
`true` iff a migration was actually performed — sources validated, sentinel
eligible, and both primary copies succeeded, in which case the two primary
destination files hold the source contents; it returns `false` (still a
normal return) both when migration is not needed and when validation or a
primary copy fails. -/
theorem claim_C1_returns_true_iff_migrated (fs : FS) :
    ((update fs).2.2 = Except.ok true ↔
      validatePaths fs = Except.ok () ∧ shouldUpdate fs = true ∧
        (copyFiles fs).2 = Except.ok ()) ∧
    ((update fs).2.2 = Except.ok true →
      (update fs).1.files dest_updater = fs.files source_updater ∧
      (update fs).1.files dest_bat = fs.files source_bat) := by
  have hmp : (update fs).2.2 = Except.ok true →
      validatePaths fs = Except.ok () ∧ shouldUpdate fs = true ∧
        (copyFiles fs).2 = Except.ok () := by
    intro h
    cases hv : validatePaths fs with
    | error e =>
      obtain ⟨m, rfl⟩ := validatePaths_error_shape fs e hv
      rw [update_of_validate_error fs m hv] at h
      simp at h
    | ok u =>
      cases u
      cases hs : shouldUpdate fs with
      | false =>
        rw [update_of_not_shouldUpdate fs hv hs] at h
        simp at h
      | true =>
        cases hc : (copyFiles fs).2 with
        | error e =>
          obtain ⟨m, rfl⟩ := copyFiles_error_shape fs e hc
          rw [update_of_copy_error fs m hv hs hc] at h
          simp at h
        | ok u2 =>
          cases u2
          exact ⟨rfl, rfl, rfl⟩
  constructor
  · constructor
    · exact hmp
    · rintro ⟨hv, hs, hc⟩
      exact (update_success_parts fs hv hs hc).2.2
  · intro h
    obtain ⟨hv, hs, hc⟩ := hmp h
    obtain ⟨cu, cb, hcu, hcb, hstate⟩ := copyFiles_ok_elim fs hc
    obtain ⟨hf, _, _⟩ := update_success_parts fs hv hs hc
    constructor
    · rw [hf, updateDeps_files_frame _ dest_updater dest_updater_ne_dest_bat_deps, hstate,
        setFile_files_ne _ dest_bat cb dest_updater dest_updater_ne_dest_bat,
        setFile_files_self, hcu]
    · rw [hf, updateDeps_files_frame _ dest_bat dest_bat_ne_dest_bat_deps, hstate,
        setFile_files_self, hcb]

/-- Witness for C1 at the happy-path state: the precondition holds concretely
and the migration is performed. -/
theorem claim_C1_witness :
    (validatePaths goodFS = Except.ok () ∧ shouldUpdate goodFS = true ∧
      (copyFiles goodFS).2 = Except.ok ()) ∧
    (update goodFS).2.2 = Except.ok true ∧
    (update goodFS).1.files dest_updater = goodFS.files source_updater ∧
    (update goodFS).1.files dest_bat = goodFS.files source_bat := by
  have h := claim_C1_returns_true_iff_migrated goodFS
  have hpre : validatePaths goodFS = Except.ok () ∧ shouldUpdate goodFS = true ∧
      (copyFiles goodFS).2 = Except.ok () := ⟨by decide, by decide, by decide⟩
  have ht : (update goodFS).2.2 = Except.ok true := h.1.mpr hpre
  exact ⟨hpre, ht, h.2 ht⟩

/-- Claim C2: whenever the sentinel `dest_bat` is absent, unreadable, or does
not begin with the exact legacy prefix, `update` performs zero writes (the
filesystem is returned unchanged) and returns `false`. -/
theorem claim_C2_fail_closed_eligibility (fs : FS)
    (h : fs.files dest_bat = none ∨ fs.canRead dest_bat = false ∨
      (∀ c, fs.files dest_bat = some c →
        bytesStartsWith EXPECTED_BAT_PREFIX_BYTES c = false)) :
    (update fs).1 = fs ∧ (update fs).2.2 = Except.ok false := by
  have hs : shouldUpdate fs = false := by
    unfold shouldUpdate
    cases hr : readFileContent fs dest_bat with
    | none => simp [hr]
    | some c =>
      obtain ⟨hf, hcr⟩ := (readFileContent_some_iff fs dest_bat c).mp hr
      simp only [hr]
      rcases h with h | h | h
      · rw [h] at hf
        exact Option.noConfusion hf
      · rw [h] at hcr
        exact Bool.noConfusion hcr
      · exact h c hf
  cases hv : validatePaths fs with
  | error e =>
    obtain ⟨m, rfl⟩ := validatePaths_error_shape fs e hv
    rw [update_of_validate_error fs m hv]
    exact ⟨rfl, rfl⟩
  | ok u =>
    cases u
    rw [update_of_not_shouldUpdate fs hv hs]
    exact ⟨rfl, rfl⟩

/-- Witness for C2: sources present but no sentinel file at all. -/
theorem claim_C2_witness :
    (noSentinelFS.files dest_bat = none ∨ noSentinelFS.canRead dest_bat = false ∨
      (∀ c, noSentinelFS.files dest_bat = some c →
        bytesStartsWith EXPECTED_BAT_PREFIX_BYTES c = false)) ∧
    (update noSentinelFS).1 = noSentinelFS ∧
    (update noSentinelFS).2.2 = Except.ok false := by
  have hpre : noSentinelFS.files dest_bat = none ∨ noSentinelFS.canRead dest_bat = false ∨
      (∀ c, noSentinelFS.files dest_bat = some c →
        bytesStartsWith EXPECTED_BAT_PREFIX_BYTES c = false) := Or.inl (by decide)
  exact ⟨hpre, claim_C2_fail_closed_eligibility noSentinelFS hpre⟩

/-- Claim C3: when either source artifact is missing, `update` performs zero
writes, returns `false`, and prints exactly the `Update failed:` diagnostic
naming the specific missing source path. -/
theorem claim_C3_source_missing_aborts (fs : FS)
    (h : fs.files source_updater = none ∨ fs.files source_bat = none) :
    (update fs).1 = fs ∧ (update fs).2.2 = Except.ok false ∧
      (fs.files source_updater = none →
        (update fs).2.1 =
          ["Update failed: " ++ ("Source updater file not found: " ++ source_updater)]) ∧
      (fs.files source_updater ≠ none → fs.files source_bat = none →
        (update fs).2.1 =
          ["Update failed: " ++ ("Source batch file not found: " ++ source_bat)]) := by
  cases hu : fs.files source_updater with
  | none =>
    rw [update_of_source_updater_missing fs hu]
    exact ⟨rfl, rfl, fun _ => rfl, fun hne => absurd rfl hne⟩
  | some cu =>
    have hb : fs.files source_bat = none := by
      rcases h with h | h
      · rw [hu] at h
        exact Option.noConfusion h
      · exact h
    rw [update_of_source_bat_missing fs (by rw [hu]; rfl) hb]
    exact ⟨rfl, rfl, fun hc => Option.noConfusion hc, fun _ _ => rfl⟩

/-- Witness for C3: a state with no source artifacts at all — no writes, the
result is `false` and the diagnostic names the missing updater script. -/
theorem claim_C3_witness :
    (noSourceFS.files source_updater = none ∨ noSourceFS.files source_bat = none) ∧
    (update noSourceFS).1 = noSourceFS ∧ (update noSourceFS).2.2 = Except.ok false ∧
    (update noSourceFS).2.1 =
      ["Update failed: " ++ ("Source updater file not found: " ++ source_updater)] := by
  have hpre : noSourceFS.files source_updater = none ∨ noSourceFS.files source_bat = none :=
    Or.inl (by decide)
  have h := claim_C3_source_missing_aborts noSourceFS hpre
  exact ⟨hpre, h.1, h.2.1, h.2.2.1 (by decide)⟩

/-- Claim C4: in an eligible state where a primary copy raises an I/O error,
`update` aborts with `false`, prints only the `Update failed:` diagnostic,
never writes the dependency batch file, and touches at most the two primary
destination paths. -/
theorem claim_C4_copy_failure_aborts (fs : FS) (e : PyErr)
    (hv : validatePaths fs = Except.ok ()) (hs : shouldUpdate fs = true)
    (hc : (copyFiles fs).2 = Except.error e) :
    (update fs).2.2 = Except.ok false ∧
      (update fs).1.files dest_bat_deps = fs.files dest_bat_deps ∧
      (∀ q, q ≠ dest_updater → q ≠ dest_bat → (update fs).1.files q = fs.files q) ∧
      (∃ m, (update fs).2.1 = ["Update failed: " ++ m]) := by
  obtain ⟨m, rfl⟩ := copyFiles_error_shape fs e hc
  rw [update_of_copy_error fs m hv hs hc]
  refine ⟨rfl, ?_, ?_, ⟨m, rfl⟩⟩
  · exact copyFiles_files_frame fs dest_bat_deps dest_bat_deps_ne_dest_updater
      dest_bat_deps_ne_dest_bat
  · intro q hq1 hq2
    exact copyFiles_files_frame fs q hq1 hq2

/-- Witness for C4: the destination `update.py` is locked, so the first copy
fails; the run aborts with `false` and the dependency file is untouched. -/
theorem claim_C4_witness :
    (validatePaths lockedDestFS = Except.ok () ∧ shouldUpdate lockedDestFS = true ∧
      (copyFiles lockedDestFS).2 =
        Except.error (PyErr.updaterError ("Failed to copy files: " ++ dest_updater))) ∧
    (update lockedDestFS).2.2 = Except.ok false ∧
    (update lockedDestFS).1.files dest_bat_deps = lockedDestFS.files dest_bat_deps := by
  have h1 : validatePaths lockedDestFS = Except.ok () := by decide
  have h2 : shouldUpdate lockedDestFS = true := by decide
  have h3 : (copyFiles lockedDestFS).2 =
      Except.error (PyErr.updaterError ("Failed to copy files: " ++ dest_updater)) := by decide
  have h := claim_C4_copy_failure_aborts lockedDestFS _ h1 h2 h3
  exact ⟨⟨h1, h2, h3⟩, h.1, h.2.1⟩

/-- Claim C5: once the primary copies have succeeded, a failure of the patch
step cannot fail the migration: an unreadable or absent dependency file is
skipped silently, a failed write only logs a warning, and `update` still
returns `true`. -/
theorem claim_C5_patch_failure_nonfatal (fs : FS)
    (hv : validatePaths fs = Except.ok ()) (hs : shouldUpdate fs = true)
    (hc : (copyFiles fs).2 = Except.ok ()) :
    (update fs).2.2 = Except.ok true ∧
      (readFileContent (copyFiles fs).1 dest_bat_deps = none →
        (update fs).1 = (copyFiles fs).1 ∧
        (update fs).2.1 = ["Updated the windows standalone package updater."]) ∧
      (∀ c, readFileContent (copyFiles fs).1 dest_bat_deps = some c →
        (copyFiles fs).1.canWrite dest_bat_deps = false →
        (update fs).1 = (copyFiles fs).1 ∧
        (update fs).2.1 = ["Warning: Could not write to " ++ dest_bat_deps,
          "Updated the windows standalone package updater."]) := by
  obtain ⟨h1, h2, h3⟩ := update_success_parts fs hv hs hc
  refine ⟨h3, ?_, ?_⟩
  · intro hrd
    rw [h1, h2, updateDeps_of_read_none _ hrd]
    exact ⟨rfl, rfl⟩
  · intro c hrd hw
    rw [h1, h2, updateDeps_of_read_some_write_fail _ c hrd hw]
    exact ⟨rfl, rfl⟩

/-- Witness for C5: eligible state whose dependency file exists but is not
writable — the patch write fails, yet the run returns `true` with a warning
logged before the success line. -/
theorem claim_C5_witness :
    (validatePaths depsReadOnlyFS = Except.ok () ∧ shouldUpdate depsReadOnlyFS = true ∧
      (copyFiles depsReadOnlyFS).2 = Except.ok ()) ∧
    (update depsReadOnlyFS).2.2 = Except.ok true ∧
    (update depsReadOnlyFS).2.1 = ["Warning: Could not write to " ++ dest_bat_deps,
      "Updated the windows standalone package updater."] := by
  have h1 : validatePaths depsReadOnlyFS = Except.ok () := by decide
  have h2 : shouldUpdate depsReadOnlyFS = true := by decide
  have h3 : (copyFiles depsReadOnlyFS).2 = Except.ok () := by decide
  have h := claim_C5_patch_failure_nonfatal depsReadOnlyFS h1 h2 h3
  have hw := h.2.2 OLD_CONTENT (by decide) (by decide)
  exact ⟨⟨h1, h2, h3⟩, h.1, hw.2⟩

/-- Claim C6: in a successful migration whose dependency batch file contains
the legacy marker exactly once, the patched file equals the original with
that single occurrence replaced by the new marker, byte for byte. -/
theorem claim_C6_byte_exact_substitution (fs : FS) (a b : List Nat)
    (hv : validatePaths fs = Except.ok ()) (hs : shouldUpdate fs = true)
    (hc : (copyFiles fs).2 = Except.ok ())
    (hr : readFileContent (copyFiles fs).1 dest_bat_deps =
      some (a ++ (OLD_CONTENT ++ b)))
    (h1 : occCount OLD_CONTENT (a ++ (OLD_CONTENT ++ b)) = 1)
    (hw : (copyFiles fs).1.canWrite dest_bat_deps = true) :
    (update fs).2.2 = Except.ok true ∧
      (update fs).1.files dest_bat_deps = some (a ++ (NEW_CONTENT ++ b)) := by
  obtain ⟨hf, _, ht⟩ := update_success_parts fs hv hs hc
  refine ⟨ht, ?_⟩
  rw [hf, updateDeps_of_read_some_write_ok _ _ hr hw]
  calc (setFile (copyFiles fs).1 dest_bat_deps
          (replaceAll OLD_CONTENT NEW_CONTENT (a ++ (OLD_CONTENT ++ b))),
        ([] : List String)).1.files dest_bat_deps
      = some (replaceAll OLD_CONTENT NEW_CONTENT (a ++ (OLD_CONTENT ++ b))) :=
        setFile_files_self _ _ _
    _ = some (a ++ (NEW_CONTENT ++ b)) := by
        rw [replaceAll_single_occurrence OLD_CONTENT NEW_CONTENT a b (by decide) h1]

/-- Witness for C6 at the happy-path state, whose dependency file is
`@echo off\n <marker> \npause`. -/
theorem claim_C6_witness :
    (validatePaths goodFS = Except.ok () ∧ shouldUpdate goodFS = true ∧
      (copyFiles goodFS).2 = Except.ok () ∧
      readFileContent (copyFiles goodFS).1 dest_bat_deps =
        some (strBytes "@echo off\u000A" ++ (OLD_CONTENT ++ strBytes "\u000Apause")) ∧
      occCount OLD_CONTENT
        (strBytes "@echo off\u000A" ++ (OLD_CONTENT ++ strBytes "\u000Apause")) = 1 ∧
      (copyFiles goodFS).1.canWrite dest_bat_deps = true) ∧
    (update goodFS).1.files dest_bat_deps =
      some (strBytes "@echo off\u000A" ++ (NEW_CONTENT ++ strBytes "\u000Apause")) := by
  have h1 : validatePaths goodFS = Except.ok () := by decide
  have h2 : shouldUpdate goodFS = true := by decide
  have h3 : (copyFiles goodFS).2 = Except.ok () := by decide
  have h4 : readFileContent (copyFiles goodFS).1 dest_bat_deps =
      some (strBytes "@echo off\u000A" ++ (OLD_CONTENT ++ strBytes "\u000Apause")) := by decide
  have h5 : occCount OLD_CONTENT
      (strBytes "@echo off\u000A" ++ (OLD_CONTENT ++ strBytes "\u000Apause")) = 1 := by decide
  have h6 : (copyFiles goodFS).1.canWrite dest_bat_deps = true := by decide
  exact ⟨⟨h1, h2, h3, h4, h5, h6⟩,
    (claim_C6_byte_exact_substitution goodFS _ _ h1 h2 h3 h4 h5 h6).2⟩

/-- Claim C7: from a valid starting state (sources present, the shipped
launcher batch using the new scheme, sentinel eligible, all I/O permitted),
running `update` twice yields `true` then `false`: the second run finds the
sentinel rewritten with the new-scheme batch, hence ineligible. -/
theorem claim_C7_idempotence (fs : FS) (cb : List Nat)
    (hsu : (fs.files source_updater).isSome = true)
    (hsb : fs.files source_bat = some cb)
    (hnb : newSchemeSourceBat cb)
    (hs : shouldUpdate fs = true)
    (hr : fs.canRead = fun _ => true)
    (hw : fs.canWrite = fun _ => true) :
    (update fs).2.2 = Except.ok true ∧
      (update (update fs).1).2.2 = Except.ok false := by
  have hv : validatePaths fs = Except.ok () :=
    (validatePaths_ok_iff fs).mpr ⟨hsu, by rw [hsb]; rfl⟩
  obtain ⟨cu, hcu⟩ : ∃ cu, fs.files source_updater = some cu := by
    cases hx : fs.files source_updater with
    | none => rw [hx] at hsu; exact Bool.noConfusion hsu
    | some cu => exact ⟨cu, rfl⟩
  have hcf : copyFiles fs = (setFile (setFile fs dest_updater cu) dest_bat cb, Except.ok ()) :=
    copyFiles_ok_state fs cu cb hcu hsb (by rw [hr]) (by rw [hr]) (by rw [hw]) (by rw [hw])
  have hc2 : (copyFiles fs).2 = Except.ok () := by rw [hcf]
  obtain ⟨hf1, _, ht1⟩ := update_success_parts fs hv hs hc2
  refine ⟨ht1, ?_⟩
  have hperm := update_perm fs
  have hsu1 : ((update fs).1.files source_updater).isSome = true := by
    rw [update_files_frame fs source_updater source_updater_ne_dest_updater
      source_updater_ne_dest_bat source_updater_ne_dest_bat_deps, hcu]
    rfl
  have hsb1 : ((update fs).1.files source_bat).isSome = true := by
    rw [update_files_frame fs source_bat source_bat_ne_dest_updater
      source_bat_ne_dest_bat source_bat_ne_dest_bat_deps, hsb]
    rfl
  have hv1 : validatePaths (update fs).1 = Except.ok () :=
    (validatePaths_ok_iff (update fs).1).mpr ⟨hsu1, hsb1⟩
  have hdb : (update fs).1.files dest_bat = some cb := by
    rw [hf1, updateDeps_files_frame _ dest_bat dest_bat_ne_dest_bat_deps, hcf]
    exact setFile_files_self _ dest_bat cb
  have hrc : readFileContent (update fs).1 dest_bat = some cb :=
    (readFileContent_some_iff _ dest_bat cb).mpr ⟨hdb, by rw [hperm.1, hr]⟩
  have hss : shouldUpdate (update fs).1 = false := by
    unfold shouldUpdate
    simp only [hrc]
    exact hnb
  rw [update_of_not_shouldUpdate (update fs).1 hv1 hss]

/-- Witness for C7 at the happy-path state: the first run migrates, the
second is a no-op returning `false`. -/
theorem claim_C7_witness :
    ((goodFS.files source_updater).isSome = true ∧
      goodFS.files source_bat = some exBatContent ∧
      newSchemeSourceBat exBatContent ∧ shouldUpdate goodFS = true) ∧
    (update goodFS).2.2 = Except.ok true ∧
    (update (update goodFS).1).2.2 = Except.ok false := by
  have h1 : (goodFS.files source_updater).isSome = true := by decide
  have h2 : goodFS.files source_bat = some exBatContent := by decide
  have h3 : newSchemeSourceBat exBatContent := by
    unfold newSchemeSourceBat
    decide
  have h4 : shouldUpdate goodFS = true := by decide
  have h := claim_C7_idempotence goodFS exBatContent h1 h2 h3 h4 rfl rfl
  exact ⟨⟨h1, h2, h3, h4⟩, h⟩

/-- Claim C8: `update` never modifies the source artifacts, and every write
is confined to the two primary destination paths and the dependency-patch
path — any other path keeps its content. -/
theorem claim_C8_write_frame (fs : FS) (q : String)
    (h1 : q ≠ dest_updater) (h2 : q ≠ dest_bat) (h3 : q ≠ dest_bat_deps) :
    (update fs).1.files q = fs.files q ∧
      (update fs).1.files source_updater = fs.files source_updater ∧
      (update fs).1.files source_bat = fs.files source_bat :=
  ⟨update_files_frame fs q h1 h2 h3,
   update_files_frame fs source_updater source_updater_ne_dest_updater
     source_updater_ne_dest_bat source_updater_ne_dest_bat_deps,
   update_files_frame fs source_bat source_bat_ne_dest_updater
     source_bat_ne_dest_bat source_bat_ne_dest_bat_deps⟩

/-- Witness for C8: the unrelated file `R/other.txt` survives the happy-path
migration unchanged, as do both source artifacts. -/
theorem claim_C8_witness :
    ("R/other.txt" ≠ dest_updater ∧ "R/other.txt" ≠ dest_bat ∧
      "R/other.txt" ≠ dest_bat_deps) ∧
    (update goodFS).1.files "R/other.txt" = goodFS.files "R/other.txt" ∧
    (update goodFS).1.files source_updater = goodFS.files source_updater ∧
    (update goodFS).1.files source_bat = goodFS.files source_bat := by
  have h1 : "R/other.txt" ≠ dest_updater := by decide
  have h2 : "R/other.txt" ≠ dest_bat := by decide
  have h3 : "R/other.txt" ≠ dest_bat_deps := by decide
  exact ⟨⟨h1, h2, h3⟩, claim_C8_write_frame goodFS "R/other.txt" h1 h2 h3⟩

/-- Claim C9: no exception propagates out of the top-level call: for every
filesystem state the result is a normal boolean return (every OS error is
caught at the fallible operation; `UpdaterError` is caught by `update`). -/
theorem claim_C9_no_exception_escapes (fs : FS) :
    ∃ b, (update fs).2.2 = Except.ok b := by
  cases hv : validatePaths fs with
  | error e =>
    obtain ⟨m, rfl⟩ := validatePaths_error_shape fs e hv
    exact ⟨false, by rw [update_of_validate_error fs m hv]⟩
  | ok u =>
    cases u
    cases hs : shouldUpdate fs with
    | false => exact ⟨false, by rw [update_of_not_shouldUpdate fs hv hs]⟩
    | true =>
      cases hc : (copyFiles fs).2 with
      | error e =>
        obtain ⟨m, rfl⟩ := copyFiles_error_shape fs e hc
        exact ⟨false, by rw [update_of_copy_error fs m hv hs hc]⟩
      | ok u2 =>
        cases u2
        exact ⟨true, (update_success_parts fs hv hs hc).2.2⟩

/-- Claim C10: when the patch step reads a dependency file containing no
occurrence of the legacy marker, it still performs the write-back
unconditionally — the step is exactly a write of the original bytes, so the
content is unchanged although a write happens. -/
theorem claim_C10_unconditional_writeback (fs : FS) (c : List Nat)
    (hr : readFileContent fs dest_bat_deps = some c)
    (h0 : occCount OLD_CONTENT c = 0) :
    replaceAll OLD_CONTENT NEW_CONTENT c = c ∧
      updateDependenciesFile fs =
        ((writeFileContent fs dest_bat_deps c).1,
         (writeFileContent fs dest_bat_deps c).2.1) ∧
      (fs.canWrite dest_bat_deps = true →
        (updateDependenciesFile fs).1.files dest_bat_deps = some c) := by
  have hid : replaceAll OLD_CONTENT NEW_CONTENT c = c :=
    replaceAllAux_of_occCount_zero OLD_CONTENT NEW_CONTENT c h0
  refine ⟨hid, ?_, ?_⟩
  · unfold updateDependenciesFile
    simp only [hr, hid]
  · intro hw
    calc (updateDependenciesFile fs).1.files dest_bat_deps
        = (setFile fs dest_bat_deps
            (replaceAll OLD_CONTENT NEW_CONTENT c)).files dest_bat_deps := by
          rw [updateDeps_of_read_some_write_ok fs c hr hw]
      _ = some (replaceAll OLD_CONTENT NEW_CONTENT c) := setFile_files_self _ _ _
      _ = some c := by rw [hid]

/-- Witness for C10: a dependency file `echo hi` without the marker is
written back byte-identical. -/
theorem claim_C10_witness :
    (readFileContent depsNoMarkerFS dest_bat_deps = some (strBytes "echo hi") ∧
      occCount OLD_CONTENT (strBytes "echo hi") = 0) ∧
    replaceAll OLD_CONTENT NEW_CONTENT (strBytes "echo hi") = strBytes "echo hi" ∧
    (updateDependenciesFile depsNoMarkerFS).1.files dest_bat_deps =
      some (strBytes "echo hi") := by
  have h1 : readFileContent depsNoMarkerFS dest_bat_deps = some (strBytes "echo hi") := by
    decide
  have h2 : occCount OLD_CONTENT (strBytes "echo hi") = 0 := by decide
  have h := claim_C10_unconditional_writeback depsNoMarkerFS (strBytes "echo hi") h1 h2
  exact ⟨⟨h1, h2⟩, h.1, h.2.2 (by decide)⟩

end HLWComfy
